import Mathlib

/-!
Shallow embedding of the LLMPlug normalization layer (JavaScript source under
src/). JavaScript values are modelled as follows: absent or undefined and null
fields become Option none, strings are String, arrays are List, token counts
are Nat, and the JavaScript number NaN that arises from arithmetic on
undefined is a dedicated JNum constructor. Conditionals such as
if (x) on strings model JavaScript truthiness, where the empty string is
falsy. Vendor transports are pure function parameters.
-/

/-- JavaScript truthiness of a possibly absent string: undefined and the
empty string are falsy. -/
def truthy : Option String → Bool
  | some s => !(s == "")
  | none => false

/-- The JavaScript expression a or-else d for a possibly absent string a:
returns d when a is absent or empty. -/
def jsOrStr (a : Option String) (d : String) : String :=
  match a with
  | some s => if s == "" then d else s
  | none => d

/-- ASCII lower-casing of a character, as String.prototype.toLowerCase acts
on the ASCII range used by vendor finish-reason vocabularies. -/
def charToLowerAscii (c : Char) : Char :=
  if 65 ≤ c.toNat ∧ c.toNat ≤ 90 then Char.ofNat (c.toNat + 32) else c

/-- ASCII upper-casing of a character, as String.prototype.toUpperCase acts
on the ASCII range used by vendor finish-reason vocabularies. -/
def charToUpperAscii (c : Char) : Char :=
  if 97 ≤ c.toNat ∧ c.toNat ≤ 122 then Char.ofNat (c.toNat - 32) else c

/-- Model of String.prototype.toLowerCase restricted to ASCII. -/
def toLowerAscii (s : String) : String := ⟨s.data.map charToLowerAscii⟩

/-- Model of String.prototype.toUpperCase restricted to ASCII. -/
def toUpperAscii (s : String) : String := ⟨s.data.map charToUpperAscii⟩

/-- Whitespace in the sense of String.prototype.trim, restricted to the
ASCII whitespace that vendor payloads contain. -/
def isJsWs (c : Char) : Bool := c = ' ' ∨ c = '\n' ∨ c = '\t' ∨ c = '\r'

/-- Model of String.prototype.trim: strip whitespace from both ends. -/
def jsTrim (s : String) : String :=
  ⟨((s.data.dropWhile isJsWs).reverse.dropWhile isJsWs).reverse⟩

/-- JSON values, used where the source calls JSON.parse and JSON.stringify. -/
inductive JsonV where
  | null : JsonV
  | bool (b : Bool) : JsonV
  | num (n : Int) : JsonV
  | str (s : String) : JsonV
  | arr (elems : List JsonV) : JsonV
  | obj (fields : List (String × JsonV)) : JsonV

/-- Escape one character for a JSON string literal. -/
def jsonEscapeChar (c : Char) : String :=
  if c = '"' then "\\\""
  else if c = '\\' then "\\\\"
  else if c = '\n' then "\\n"
  else if c = '\t' then "\\t"
  else if c = '\r' then "\\r"
  else String.singleton c

/-- Escape a string for a JSON string literal. -/
def jsonEscape (s : String) : String :=
  String.join (s.toList.map jsonEscapeChar)

mutual

/-- Model of JSON.stringify on the values above. -/
def jsonStringify : JsonV → String
  | .null => "null"
  | .bool true => "true"
  | .bool false => "false"
  | .num n => toString n
  | .str s => "\"" ++ jsonEscape s ++ "\""
  | .arr elems => "[" ++ jsonStringifyList elems ++ "]"
  | .obj fields => "\x7b" ++ jsonStringifyFields fields ++ "\x7d"

/-- Comma-joined serialization of a list of JSON values. -/
def jsonStringifyList : List JsonV → String
  | [] => ""
  | [x] => jsonStringify x
  | x :: xs => jsonStringify x ++ "," ++ jsonStringifyList xs

/-- Comma-joined serialization of the fields of a JSON object. -/
def jsonStringifyFields : List (String × JsonV) → String
  | [] => ""
  | [(k, v)] => "\"" ++ jsonEscape k ++ "\":" ++ jsonStringify v
  | (k, v) :: xs => "\"" ++ jsonEscape k ++ "\":" ++ jsonStringify v ++ "," ++ jsonStringifyFields xs

end

/-- Is this character JSON whitespace? -/
def jsonWs (c : Char) : Bool := c = ' ' ∨ c = '\n' ∨ c = '\t' ∨ c = '\r'

/-- Skip leading JSON whitespace. -/
def jsonSkipWs : List Char → List Char
  | [] => []
  | c :: cs => if jsonWs c then jsonSkipWs cs else c :: cs

/-- Parse the body of a JSON string literal after the opening quote; returns
the string content and the rest after the closing quote. -/
def jsonParseStrBody : List Char → Option (String × List Char)
  | [] => none
  | c :: cs =>
    if c = '"' then some ("", cs)
    else if c = '\\' then
      match cs with
      | [] => none
      | e :: cs2 =>
        let dec : Option Char :=
          if e = '"' then some '"'
          else if e = '\\' then some '\\'
          else if e = 'n' then some '\n'
          else if e = 't' then some '\t'
          else if e = 'r' then some '\r'
          else if e = '/' then some '/'
          else none
        match dec with
        | some d =>
          match jsonParseStrBody cs2 with
          | some (s, rest) => some (String.singleton d ++ s, rest)
          | none => none
        | none => none
    else
      match jsonParseStrBody cs with
      | some (s, rest) => some (String.singleton c ++ s, rest)
      | none => none

/-- Parse a run of decimal digits. -/
def jsonParseDigits : List Char → Nat → Bool → Option (Nat × List Char)
  | [], acc, seen => if seen then some (acc, []) else none
  | c :: cs, acc, seen =>
    if c.isDigit then jsonParseDigits cs (acc * 10 + (c.toNat - 48)) true
    else if seen then some (acc, c :: cs) else none

mutual

/-- Fuel-bounded recursive-descent parser for one JSON value. -/
def jsonParseVal : Nat → List Char → Option (JsonV × List Char)
  | 0, _ => none
  | fuel + 1, input =>
    match jsonSkipWs input with
    | [] => none
    | c :: cs =>
      if c = 'n' then
        match cs with
        | 'u' :: 'l' :: 'l' :: rest => some (.null, rest)
        | _ => none
      else if c = 't' then
        match cs with
        | 'r' :: 'u' :: 'e' :: rest => some (.bool true, rest)
        | _ => none
      else if c = 'f' then
        match cs with
        | 'a' :: 'l' :: 's' :: 'e' :: rest => some (.bool false, rest)
        | _ => none
      else if c = '"' then
        match jsonParseStrBody cs with
        | some (s, rest) => some (.str s, rest)
        | none => none
      else if c = '-' then
        match jsonParseDigits cs 0 false with
        | some (n, rest) => some (.num (-(n : Int)), rest)
        | none => none
      else if c.isDigit then
        match jsonParseDigits (c :: cs) 0 false with
        | some (n, rest) => some (.num (n : Int), rest)
        | none => none
      else if c = '\x7b' then
        match jsonParseObjTail fuel cs with
        | some (kvs, rest) => some (.obj kvs, rest)
        | none => none
      else if c = '[' then
        match jsonParseArrTail fuel cs with
        | some (vs, rest) => some (.arr vs, rest)
        | none => none
      else none

/-- Fuel-bounded parser for the elements of a JSON array after the opening
bracket. -/
def jsonParseArrTail : Nat → List Char → Option (List JsonV × List Char)
  | 0, _ => none
  | fuel + 1, input =>
    match jsonSkipWs input with
    | ']' :: rest => some ([], rest)
    | other =>
      match jsonParseVal fuel other with
      | some (v, rest1) =>
        match jsonSkipWs rest1 with
        | ',' :: rest2 =>
          match jsonParseArrTail fuel rest2 with
          | some (vs, rest3) => some (v :: vs, rest3)
          | none => none
        | ']' :: rest2 => some ([v], rest2)
        | _ => none
      | none => none

/-- Fuel-bounded parser for the fields of a JSON object after the opening
brace. -/
def jsonParseObjTail : Nat → List Char → Option (List (String × JsonV) × List Char)
  | 0, _ => none
  | fuel + 1, input =>
    match jsonSkipWs input with
    | '\x7d' :: rest => some ([], rest)
    | '"' :: cs =>
      match jsonParseStrBody cs with
      | some (k, rest1) =>
        match jsonSkipWs rest1 with
        | ':' :: rest2 =>
          match jsonParseVal fuel rest2 with
          | some (v, rest3) =>
            match jsonSkipWs rest3 with
            | ',' :: rest4 =>
              match jsonParseObjTail fuel rest4 with
              | some (kvs, rest5) => some ((k, v) :: kvs, rest5)
              | none => none
            | '\x7d' :: rest4 => some ([(k, v)], rest4)
            | _ => none
          | none => none
        | _ => none
      | none => none
    | _ => none

end

/-- Model of JSON.parse: succeeds exactly when the whole string is one JSON
value, possibly surrounded by whitespace. The fuel is one unit per input
character plus one, enough for any nesting the input can express. -/
def jsonParse (s : String) : Option JsonV :=
  match jsonParseVal (s.length + 1) s.toList with
  | some (v, rest) => if jsonSkipWs rest = [] then some v else none
  | none => none

/-- A JavaScript NaN-aware number, for usage totals computed by addition on
possibly undefined operands. -/
inductive JNum where
  | nat (n : Nat) : JNum
  | nan : JNum
deriving DecidableEq

/-- JavaScript addition of two possibly absent token counts: undefined plus
anything is NaN. Used by CohereProvider.chat for totalTokens. -/
def jsAddTokens : Option Nat → Option Nat → JNum
  | some a, some b => .nat (a + b)
  | _, _ => .nan

/-- Canonical tool-call function payload: name and JSON-encoded arguments
string (src/src/providers/baseProvider.js ToolCall shape). -/
structure ToolCallFn where
  name : String
  arguments : String
deriving DecidableEq

/-- Canonical ToolCall: id and type are vendor-assigned and may be absent on
streamed fragments. -/
structure ToolCall where
  id : Option String := none
  type : Option String := none
  function : ToolCallFn
deriving DecidableEq

/-- Canonical usage record of a GenerationResult; each field is absent when
the vendor payload lacks it. -/
structure Usage where
  promptTokens : Option JNum := none
  completionTokens : Option JNum := none
  totalTokens : Option JNum := none
deriving DecidableEq

/-- Canonical GenerationResult. text distinguishes the empty string
(some "") from null and undefined (none); toolCalls distinguishes the empty
array (some []) from undefined (none); usage none models both null and
undefined. rawResponse is an opaque passthrough of the vendor payload and is
not modelled as a separate field. -/
structure GenerationResult where
  text : Option String := none
  toolCalls : Option (List ToolCall) := none
  usage : Option Usage := none
  finishReason : Option String := none
deriving DecidableEq

/-- One part of a multimodal message content array. -/
inductive ContentPart where
  | text (t : String) : ContentPart
  | imageUrl (url : String) (detail : Option String) : ContentPart
  | toolOutput (content : JsonV) : ContentPart
  | toolCode (t : String) : ContentPart

/-- Content of a canonical ChatMessage: a plain string, an ordered list of
parts, or null. -/
inductive MsgContent where
  | str (s : String) : MsgContent
  | parts (ps : List ContentPart) : MsgContent
  | null : MsgContent

/-- Canonical ChatMessage (src/src/providers/baseProvider.js typedef plus the
tool fields used throughout the providers). -/
structure ChatMessage where
  role : String
  content : MsgContent
  name : Option String := none
  tool_calls : Option (List ToolCall) := none
  tool_call_id : Option String := none

/-- Tool declaration function payload passed in GenerationOptions.tools. -/
structure ToolDefFn where
  name : String
  description : Option String := none
  parameters : Option JsonV := none

/-- Tool declaration passed in GenerationOptions.tools. -/
structure ToolDef where
  type : String
  function : ToolDefFn

/-- responseFormat option value. -/
structure ResponseFormat where
  type : String

/-- GenerationOptions recognized by the providers. temperature is a vendor
passthrough never computed with, so an integer stand-in for the JavaScript
number suffices; extraParams is carried as an opaque JSON value. -/
structure GenerationOptions where
  model : Option String := none
  temperature : Option Int := none
  maxTokens : Option Nat := none
  stopSequences : Option (List String) := none
  tools : Option (List ToolDef) := none
  toolChoice : Option String := none
  responseFormat : Option ResponseFormat := none
  extraParams : Option JsonV := none

/-! # Error model (src/src/utils/errors.js)

Each error object carries its class name, message, provider and
originalError. The cause of an error is modelled as an opaque string
identifier. -/

/-- An LLMPlug error object as constructed by the classes in
src/src/utils/errors.js. -/
structure LLMPlugErrObj where
  name : String
  message : String
  provider : Option String := none
  originalError : Option String := none
deriving DecidableEq

/-- Constructor of LLMPlugError: stores message, provider and originalError. -/
def mkLLMPlugError (message : String) (provider : Option String)
    (originalError : Option String) : LLMPlugErrObj :=
  { name := "LLMPlugError", message := message, provider := provider,
    originalError := originalError }

/-- Constructor of LLMPlugConfigurationError. Its JavaScript parameter list
is (message, provider) only and it calls super(message, provider), so a third
argument passed at a call site (the cause) is silently dropped; the cause
parameter here models that extra call-site argument. -/
def mkLLMPlugConfigurationError (message : String) (provider : Option String)
    (_cause : Option String) : LLMPlugErrObj :=
  { mkLLMPlugError message provider none with name := "LLMPlugConfigurationError" }

/-- Constructor of LLMPlugRequestError: forwards the cause to the base
constructor. -/
def mkLLMPlugRequestError (message : String) (provider : Option String)
    (originalError : Option String) : LLMPlugErrObj :=
  { mkLLMPlugError message provider originalError with name := "LLMPlugRequestError" }

/-- Constructor of LLMPlugToolError: forwards the cause to the base
constructor and records the tool name. -/
def mkLLMPlugToolError (message : String) (provider : Option String)
    (toolName : Option String) (originalError : Option String) :
    LLMPlugErrObj × Option String :=
  ({ mkLLMPlugError message provider originalError with name := "LLMPlugToolError" },
   toolName)

/-! # Provider registry (src/src/index.js) -/

/-- Tags for the provider classes registered in src/src/index.js. -/
inductive ProviderTag where
  | openai | anthropic | google | huggingface
deriving DecidableEq

/-- The PROVIDERS registry object of src/src/index.js, in declaration order. -/
def PROVIDERS : List (String × ProviderTag) :=
  [("openai", .openai), ("anthropic", .anthropic),
   ("google", .google), ("huggingface", .huggingface)]

/-- Comma-space join of a list of strings, as Array.prototype.join with
separator ", ". -/
def joinCommaSpace : List String → String
  | [] => ""
  | [x] => x
  | x :: xs => x ++ ", " ++ joinCommaSpace xs

/-- LLMPlug.getProvider (src/src/index.js lines 27-33): look the name up
lower-cased; when absent, throw the base LLMPlugError listing the supported
names and construct no provider. The ok branch models reaching
new ProviderClass(config). -/
def getProvider (providerName : String) : Except LLMPlugErrObj ProviderTag :=
  match PROVIDERS.lookup (toLowerAscii providerName) with
  | some tag => .ok tag
  | none => .error (mkLLMPlugError
      ("Unsupported provider: " ++ providerName ++ ". Supported providers are: "
        ++ joinCommaSpace (PROVIDERS.map (fun p => p.1))) none none)

/-! # OpenAI provider (src/src/providers/openaiProvider.js) -/

/-- One content part of an OpenAI wire message. -/
inductive OAIContentPart where
  | text (t : String) : OAIContentPart
  | imageUrl (url : String) (detail : String) : OAIContentPart

/-- Content of an OpenAI wire message. -/
inductive OAIContent where
  | str (s : String) : OAIContent
  | parts (ps : List OAIContentPart) : OAIContent
  | null : OAIContent

/-- An OpenAI wire message as built by _formatMessagesForOpenAI. -/
structure OAIMsg where
  role : String
  content : OAIContent
  name : Option String := none
  tool_calls : Option (List ToolCall) := none
  tool_call_id : Option String := none

/-- OpenAIProvider._formatMessagesForOpenAI (lines 24-37): maps every message,
normalizing content and copying name, tool_calls and tool_call_id when
truthy. The _normalizeContent helper is not part of the sources under src, so
it is taken as a function parameter. Note that no validation of
tool_call_id against earlier assistant tool_calls happens here. -/
def formatMessagesForOpenAI (normalize : MsgContent → OAIContent)
    (messages : List ChatMessage) : List OAIMsg :=
  messages.map fun msg =>
    { role := msg.role
      content := normalize msg.content
      name := if truthy msg.name then msg.name else none
      tool_calls := msg.tool_calls
      tool_call_id := if truthy msg.tool_call_id then msg.tool_call_id else none }

/-- OpenAIProvider._prepareInputAsMessages (lines 44-54): a string becomes a
one-element user message list, an array passes through. The invalid-input
throw is unreachable in this typed embedding. -/
def openaiPrepareInputAsMessages (input : String ⊕ List ChatMessage) : List ChatMessage :=
  match input with
  | .inl p => [{ role := "user", content := .str p }]
  | .inr msgs => msgs

/-- The request object sent to the OpenAI chat completions endpoint. The
object spread of options.extraParams is carried in the extra field. -/
structure OAIRequest where
  model : String
  messages : List OAIMsg
  temperature : Option Int := none
  max_tokens : Option Nat := none
  stop : Option (List String) := none
  tools : Option (List ToolDef) := none
  tool_choice : Option String := none
  response_format : Option ResponseFormat := none
  stream : Bool := false
  extra : Option JsonV := none

/-- Function payload of a tool call in an OpenAI chat completion response. -/
structure OAIRespFn where
  name : String
  arguments : String

/-- A tool call entry in an OpenAI chat completion response. -/
structure OAIRespToolCall where
  id : Option String := none
  type : Option String := none
  function : OAIRespFn

/-- The assistant message of an OpenAI chat completion choice. -/
structure OAIRespMessage where
  content : Option String := none
  tool_calls : Option (List OAIRespToolCall) := none

/-- One choice of an OpenAI chat completion response. -/
structure OAIChoice where
  message : Option OAIRespMessage := none
  finish_reason : Option String := none

/-- The usage object of an OpenAI chat completion response. -/
structure OAIUsageResp where
  prompt_tokens : Option Nat := none
  completion_tokens : Option Nat := none
  total_tokens : Option Nat := none

/-- An OpenAI chat completion response. -/
structure OAICompletion where
  choices : List OAIChoice := []
  usage : Option OAIUsageResp := none

/-- Inbound mapping of OpenAIProvider.chat (lines 90-113): text defaults to
the empty string, toolCalls to the empty array, usage fields pass through,
finish_reason passes through verbatim with no case conversion. -/
def openaiChatResult (completion : OAICompletion) : GenerationResult :=
  let msg := completion.choices.head?.bind fun c => c.message
  let textContent := jsOrStr ((msg.bind fun m => m.content).map jsTrim) ""
  let toolCalls : List ToolCall :=
    match msg.bind fun m => m.tool_calls with
    | some calls => calls.map fun call =>
        { id := call.id, type := call.type,
          function := { name := call.function.name, arguments := call.function.arguments } }
    | none => []
  let usage : Usage :=
    { promptTokens := (completion.usage.bind fun u => u.prompt_tokens).map .nat
      completionTokens := (completion.usage.bind fun u => u.completion_tokens).map .nat
      totalTokens := (completion.usage.bind fun u => u.total_tokens).map .nat }
  { text := some textContent
    toolCalls := some toolCalls
    usage := some usage
    finishReason := completion.choices.head?.bind fun c => c.finish_reason }

/-- OpenAIProvider.chat (lines 71-117): build the request, call the
transport, map the response. The catch branch wrapping transport errors is
outside this pure model. -/
def openaiChat (defaultModel : String) (normalize : MsgContent → OAIContent)
    (messages : List ChatMessage) (options : GenerationOptions)
    (transport : OAIRequest → OAICompletion) : GenerationResult :=
  openaiChatResult (transport
    { model := jsOrStr options.model defaultModel
      messages := formatMessagesForOpenAI normalize messages
      temperature := options.temperature
      max_tokens := options.maxTokens
      stop := options.stopSequences
      tools := options.tools
      tool_choice := options.toolChoice
      response_format := options.responseFormat
      stream := false
      extra := options.extraParams })

/-- OpenAIProvider.generate (lines 61-64): wrap the input as messages and
delegate to chat with the options untouched. -/
def openaiGenerate (defaultModel : String) (normalize : MsgContent → OAIContent)
    (input : String ⊕ List ChatMessage) (options : GenerationOptions)
    (transport : OAIRequest → OAICompletion) : GenerationResult :=
  openaiChat defaultModel normalize (openaiPrepareInputAsMessages input) options transport

/-! # Streaming (OpenAIProvider.chatStream and
GenericOpenAICompatibleProvider.chatStream) -/

/-- Function payload of a streamed tool-call delta. -/
structure TCDeltaFn where
  name : Option String := none
  arguments : Option String := none

/-- One streamed tool-call delta, correlated by positional index. -/
structure TCDelta where
  index : Nat
  id : Option String := none
  type : Option String := none
  function : Option TCDeltaFn := none

/-- The delta object of a streamed chat completion chunk. -/
structure OAIDelta where
  content : Option String := none
  tool_calls : Option (List TCDelta) := none

/-- One choice of a streamed chat completion chunk. -/
structure OAIStreamChoice where
  delta : Option OAIDelta := none
  finish_reason : Option String := none

/-- One vendor event of a streamed chat completion. -/
structure OAIStreamChunk where
  choices : List OAIStreamChoice := []
  usage : Option OAIUsageResp := none

/-- Function payload of a tool call inside a yielded stream chunk; the name
may still be absent on later fragments. -/
structure StreamToolCallFn where
  name : Option String := none
  arguments : String := ""

/-- A tool call inside a yielded stream chunk. -/
structure StreamToolCall where
  id : Option String := none
  type : Option String := none
  function : StreamToolCallFn

/-- A chunk yielded by OpenAIProvider.chatStream; usage is normalized to the
canonical field names there. -/
structure OAIStreamOut where
  text : Option String := none
  toolCalls : Option (List StreamToolCall) := none
  finishReason : Option String := none
  usage : Option Usage := none

/-- A chunk yielded by GenericOpenAICompatibleProvider.chatStream; its usage
is the raw vendor usage object (line 256 copies chunk.usage unchanged). -/
structure GenStreamOut where
  text : Option String := none
  toolCalls : Option (List StreamToolCall) := none
  finishReason : Option String := none
  usage : Option OAIUsageResp := none

/-- Per-event body of OpenAIProvider.chatStream (lines 154-189): every
vendor chunk yields one chunk; text is forwarded when truthy; tool-call
deltas are mapped positionally with no accumulation (the source comments
that arguments come as chunks to accumulate later); finish reason and
normalized usage forwarded when present. On a delta whose function object is
absent the source would raise a TypeError; such events occur in no OpenAI
stream and are mapped to an empty function payload here. -/
def openaiStreamStep (chunk : OAIStreamChunk) : OAIStreamOut :=
  let delta := chunk.choices.head?.bind fun c => c.delta
  let finishReason := chunk.choices.head?.bind fun c => c.finish_reason
  let text :=
    match delta.bind fun d => d.content with
    | some s => if s == "" then none else some s
    | none => none
  let toolCalls :=
    match delta.bind fun d => d.tool_calls with
    | some calls => some (calls.map fun call =>
        { id := call.id, type := call.type,
          function := { name := call.function.bind fun f => f.name,
                        arguments := jsOrStr (call.function.bind fun f => f.arguments) "" } })
    | none => none
  let usage :=
    match chunk.usage with
    | some u => some ({ promptTokens := u.prompt_tokens.map .nat,
                        completionTokens := u.completion_tokens.map .nat,
                        totalTokens := u.total_tokens.map .nat } : Usage)
    | none => none
  { text := text, toolCalls := toolCalls,
    finishReason := if truthy finishReason then finishReason else none,
    usage := usage }

/-- OpenAIProvider.chatStream over a drained vendor stream: one yielded
chunk per vendor event, no cross-event state. -/
def openaiChatStream (chunks : List OAIStreamChunk) : List OAIStreamOut :=
  chunks.map openaiStreamStep

/-- The accumulated tool-call state of the generic streaming reconstructor:
currentToolCallsState keyed by positional index. -/
abbrev GState := List (Nat × StreamToolCall)

/-- Lookup in the accumulated state. -/
def gstateGet (st : GState) (k : Nat) : Option StreamToolCall := st.lookup k

/-- Replace-or-add in the accumulated state. -/
def gstateSet : GState → Nat → StreamToolCall → GState
  | [], k, v => [(k, v)]
  | (k0, v0) :: rest, k, v =>
    if k0 = k then (k, v) :: rest else (k0, v0) :: gstateSet rest k v

/-- One tool-call delta applied to currentToolCallsState
(baseProvider.js lines 239-246): a truthy id starts a fresh entry at the
index; otherwise an existing entry is updated, replacing the name and
appending the arguments fragment when each is truthy; a fragment for an
unannounced index is dropped. -/
def applyTcDelta (st : GState) (d : TCDelta) : GState :=
  if truthy d.id then
    gstateSet st d.index
      { id := d.id, type := some "function",
        function := { name := some (jsOrStr (d.function.bind fun f => f.name) ""),
                      arguments := jsOrStr (d.function.bind fun f => f.arguments) "" } }
  else
    match gstateGet st d.index, d.function with
    | some tc, some f =>
      let tc1 := if truthy f.name then
          { tc with function := { tc.function with name := f.name } } else tc
      let tc2 := if truthy f.arguments then
          { tc1 with function :=
            { tc1.function with arguments := tc1.function.arguments ++ f.arguments.getD "" } }
        else tc1
      gstateSet st d.index tc2
    | _, _ => st

/-- Per-event body of GenericOpenAICompatibleProvider.chatStream
(lines 227-258): an event without a choice is skipped; tool-call deltas fold
through the accumulated state and each processed entry is snapshotted into
the yielded chunk; a truthy finish reason is forwarded lower-cased and resets
the state; raw vendor usage is forwarded when present. -/
def genericStreamStep (st : GState) (chunk : OAIStreamChunk) :
    GState × Option GenStreamOut :=
  match chunk.choices.head? with
  | none => (st, none)
  | some choice =>
    let delta := choice.delta
    let finishReason := choice.finish_reason.map toLowerAscii
    let text :=
      match delta.bind fun d => d.content with
      | some s => if s == "" then none else some s
      | none => none
    let folded :=
      match delta.bind fun d => d.tool_calls with
      | some tcds =>
        tcds.foldl (fun (acc : GState × List StreamToolCall) d =>
          let st2 := applyTcDelta acc.1 d
          match gstateGet st2 d.index with
          | some tc => (st2, acc.2 ++ [tc])
          | none => (st2, acc.2)) (st, ([] : List StreamToolCall))
      | none => (st, [])
    let toolCalls := if folded.2.isEmpty then none else some folded.2
    let frTruthy := truthy finishReason
    ((if frTruthy then [] else folded.1),
     some { text := text, toolCalls := toolCalls,
            finishReason := if frTruthy then finishReason else none,
            usage := chunk.usage })

/-- Drain loop of GenericOpenAICompatibleProvider.chatStream from a given
state. -/
def genericChatStreamGo : GState → List OAIStreamChunk → List GenStreamOut
  | _, [] => []
  | st, c :: cs =>
    match genericStreamStep st c with
    | (st2, some out) => out :: genericChatStreamGo st2 cs
    | (st2, none) => genericChatStreamGo st2 cs

/-- GenericOpenAICompatibleProvider.chatStream over a drained vendor stream,
starting from the empty accumulated state. -/
def genericChatStream (chunks : List OAIStreamChunk) : List GenStreamOut :=
  genericChatStreamGo [] chunks

/-- The in-order text-delta fragments of a vendor stream, as read by both
streaming loops: choices[0].delta.content of each event. -/
def streamTextFragments (chunks : List OAIStreamChunk) : List String :=
  chunks.filterMap fun c => (c.choices.head?.bind fun ch => ch.delta).bind fun d => d.content

/-! # Generic OpenAI-compatible and OpenRouter providers, non-streaming
inbound mapping (baseProvider.js lines 144-195, part_005 lines 133-202) -/

/-- JavaScript truthiness of a possibly absent JSON value. -/
def jsonTruthy : JsonV → Bool
  | .null => false
  | .bool b => b
  | .num n => !(n == 0)
  | .str s => !(s == "")
  | .arr _ => true
  | .obj _ => true

/-- The JavaScript expression a or-else d on a possibly absent JSON value. -/
def jsOrJson (a : Option JsonV) (d : JsonV) : JsonV :=
  match a with
  | some v => if jsonTruthy v then v else d
  | none => d

/-- The JavaScript expression a or-else b on two possibly absent numbers:
zero is falsy. -/
def jsOrNum (a b : Option Nat) : Option Nat :=
  match a with
  | some n => if n == 0 then b else some n
  | none => b

/-- Inbound mapping of GenericOpenAICompatibleProvider.chat
(lines 167-186): no choice throws a request error; text falls back to null,
toolCalls to undefined; a missing tool-call id is synthesized from the
function name and Date.now(); finish_reason is lower-cased. The source
passes the raw completion as the cause of the no-choices error, written here
as the opaque identifier rawResponse. -/
def genericChatResult (providerName model : String) (now : Nat)
    (completion : OAICompletion) : Except LLMPlugErrObj GenerationResult :=
  match completion.choices.head? with
  | none => .error (mkLLMPlugRequestError
      ("[" ++ providerName ++ "] API returned no choices for model " ++ model ++ ".")
      (some providerName) (some "rawResponse"))
  | some choice =>
    let textContent :=
      match (choice.message.bind fun m => m.content).map jsTrim with
      | some t => if t == "" then none else some t
      | none => none
    let toolCalls : List ToolCall :=
      match choice.message.bind fun m => m.tool_calls with
      | some calls => calls.map fun call =>
          { id := some (jsOrStr call.id (call.function.name ++ "-" ++ toString now)),
            type := some "function",
            function := { name := call.function.name, arguments := call.function.arguments } }
      | none => []
    let usage : Usage :=
      { promptTokens := (completion.usage.bind fun u => u.prompt_tokens).map .nat
        completionTokens := (completion.usage.bind fun u => u.completion_tokens).map .nat
        totalTokens := (completion.usage.bind fun u => u.total_tokens).map .nat }
    .ok { text := textContent
          toolCalls := if toolCalls.length > 0 then some toolCalls else none
          usage := some usage
          finishReason := choice.finish_reason.map toLowerAscii }

/-- Inbound mapping of OpenRouterProvider.chat (part_005 lines 159-190):
like the generic provider but the tool-call id and type pass through
unchanged. -/
def openRouterChatResult (completion : OAICompletion) :
    Except LLMPlugErrObj GenerationResult :=
  match completion.choices.head? with
  | none => .error (mkLLMPlugRequestError "OpenRouter API returned no choices."
      (some "OpenRouter") (some "rawResponse"))
  | some choice =>
    let textContent :=
      match (choice.message.bind fun m => m.content).map jsTrim with
      | some t => if t == "" then none else some t
      | none => none
    let toolCalls : List ToolCall :=
      match choice.message.bind fun m => m.tool_calls with
      | some calls => calls.map fun call =>
          { id := call.id, type := call.type,
            function := { name := call.function.name, arguments := call.function.arguments } }
      | none => []
    let usage : Usage :=
      { promptTokens := (completion.usage.bind fun u => u.prompt_tokens).map .nat
        completionTokens := (completion.usage.bind fun u => u.completion_tokens).map .nat
        totalTokens := (completion.usage.bind fun u => u.total_tokens).map .nat }
    .ok { text := textContent
          toolCalls := if toolCalls.length > 0 then some toolCalls else none
          usage := some usage
          finishReason := choice.finish_reason.map toLowerAscii }

/-! # Anthropic provider, non-streaming inbound mapping
(src/src/providers/anthropicProvider.js lines 174-205) -/

/-- One content block of an Anthropic response. -/
inductive AnthropicBlock where
  | text (text : String) : AnthropicBlock
  | toolUse (id : String) (name : String) (input : Option JsonV) : AnthropicBlock

/-- The usage object of an Anthropic response; Anthropic reports input and
output token counts and no total. -/
structure AnthropicUsage where
  input_tokens : Option Nat := none
  output_tokens : Option Nat := none

/-- An Anthropic messages response. -/
structure AnthropicResponse where
  content : List AnthropicBlock := []
  stop_reason : Option String := none
  usage : Option AnthropicUsage := none

/-- The text of a text block. -/
def anthropicBlockText : AnthropicBlock → Option String
  | .text t => some t
  | _ => none

/-- The tool-use fields of a tool-use block. -/
def anthropicBlockToolUse : AnthropicBlock → Option (String × String × Option JsonV)
  | .toolUse id name input => some (id, name, input)
  | _ => none

/-- Inbound mapping of AnthropicProvider.chat (lines 177-205): text blocks
are concatenated in order and trimmed, the empty concatenation becomes null;
tool-use inputs are stringified; totalTokens is computed as
(input_tokens or 0) + (output_tokens or 0); stop_reason passes through
verbatim with no case conversion. -/
def anthropicChatResult (response : AnthropicResponse) : GenerationResult :=
  let joined := jsTrim (String.join (response.content.filterMap anthropicBlockText))
  let textContent := if joined == "" then none else some joined
  let toolCalls : List ToolCall :=
    response.content.filterMap anthropicBlockToolUse |>.map fun b =>
      { id := some b.1, type := some "function",
        function := { name := b.2.1, arguments := jsonStringify (jsOrJson b.2.2 (.obj [])) } }
  let inTok := response.usage.bind fun u => u.input_tokens
  let outTok := response.usage.bind fun u => u.output_tokens
  { text := textContent
    toolCalls := if toolCalls.length > 0 then some toolCalls else none
    usage := some { promptTokens := inTok.map .nat
                    completionTokens := outTok.map .nat
                    totalTokens := some (.nat (inTok.getD 0 + outTok.getD 0)) }
    finishReason := response.stop_reason }

/-! # Google provider, non-streaming inbound mapping
(src/src/providers/googleProvider.js lines 183-239) -/

/-- One part of a Google candidate content. -/
inductive GooglePart where
  | text (text : String) : GooglePart
  | functionCall (name : String) (args : Option JsonV) : GooglePart

/-- The content object of a Google candidate. -/
structure GoogleContent where
  parts : Option (List GooglePart) := none

/-- One candidate of a Google response. -/
structure GoogleCandidate where
  content : Option GoogleContent := none
  finishReason : Option String := none
  tokenCount : Option Nat := none

/-- The usageMetadata object of a Google response. -/
structure GoogleUsageMetadata where
  promptTokenCount : Option Nat := none
  candidatesTokenCount : Option Nat := none
  totalTokenCount : Option Nat := none

/-- A Google generateContent response. -/
structure GoogleResponse where
  candidates : Option (List GoogleCandidate) := none
  usageMetadata : Option GoogleUsageMetadata := none

/-- The text of a text part when truthy, as the filter part.text selects. -/
def googlePartText : GooglePart → Option String
  | .text t => if t == "" then none else some t
  | _ => none

/-- The function-call fields of a functionCall part. -/
def googlePartFunctionCall : GooglePart → Option (String × Option JsonV)
  | .functionCall name args => some (name, args)
  | _ => none

/-- Inbound mapping of GoogleProvider.chat (lines 188-239): truthy text
parts of the first candidate are concatenated and trimmed with the empty
result becoming null; function calls get synthesized ids from Date.now() and
their position; completionTokens falls back from candidatesTokenCount to the
candidate tokenCount under JavaScript number truthiness; finishReason passes
through verbatim with no case conversion. -/
def googleChatResult (now : Nat) (response : GoogleResponse) : GenerationResult :=
  let candidate := response.candidates.bind List.head?
  let parts := (candidate.bind fun c => c.content).bind fun c => c.parts
  let textContent :=
    match parts with
    | some ps =>
      let t := jsTrim (String.join (ps.filterMap googlePartText))
      if t == "" then none else some t
    | none => none
  let toolCalls : List ToolCall :=
    match parts with
    | some ps =>
      (ps.filterMap googlePartFunctionCall).enum.map fun fc =>
        { id := some ("gemini-fc-" ++ toString now ++ "-" ++ toString fc.1),
          type := some "function",
          function := { name := fc.2.1,
                        arguments := jsonStringify (jsOrJson fc.2.2 (.obj [])) } }
    | none => []
  { text := textContent
    toolCalls := if toolCalls.length > 0 then some toolCalls else none
    usage := some
      { promptTokens := ((response.usageMetadata.bind fun u => u.promptTokenCount)).map .nat
        completionTokens := (jsOrNum (response.usageMetadata.bind fun u => u.candidatesTokenCount)
          (candidate.bind fun c => c.tokenCount)).map .nat
        totalTokens := ((response.usageMetadata.bind fun u => u.totalTokenCount)).map .nat }
    finishReason := candidate.bind fun c => c.finishReason }

/-! # Cohere provider (src/unnamed/part_004) -/

/-- A tool call announced by a CHATBOT message in the Cohere wire format:
parameters are a parsed JSON value, not a string. -/
structure CohereToolCallOut where
  name : String
  parameters : JsonV

/-- The call component of a Cohere tool result. -/
structure CohereToolResultCall where
  name : String
  parameters : JsonV

/-- One Cohere tool result: the original call and its outputs. -/
structure CohereToolResult where
  call : CohereToolResultCall
  outputs : List JsonV

/-- One message of the Cohere chat wire format. -/
inductive CohereMsg where
  | chat (role : String) (message : String) (toolCalls : Option (List CohereToolCallOut)) : CohereMsg
  | tool (toolResults : List CohereToolResult) : CohereMsg

/-- An error escaping _formatMessagesForCohere: either an LLMPlugToolError,
or an uncaught JavaScript error (a JSON.parse SyntaxError, or the TypeError
from the assignment to the const cohereRole on an unknown role and from
reading properties of null content). -/
inductive CohereFmtError where
  | toolError (message : String) (toolName : Option String) : CohereFmtError
  | jsError : CohereFmtError

/-- The accumulator of _formatMessagesForCohere: the system preamble seen so
far and the formatted messages. -/
structure CohereAcc where
  preamble : Option String := none
  messages : List CohereMsg := []

/-- Is this JSON value a JavaScript object in the typeof sense (object,
array, or null)? -/
def isJsObjectLike : JsonV → Bool
  | .obj _ => true
  | .arr _ => true
  | .null => true
  | _ => false

/-- The first tool_output part of a content part list. -/
def findToolOutput : List ContentPart → Option JsonV
  | [] => none
  | .toolOutput c :: _ => some c
  | _ :: rest => findToolOutput rest

/-- Text joined from content for the Cohere SYSTEM branch (part_004
line 100): a string passes through, an array maps text parts and joins with
newlines, null content raises a TypeError. -/
def cohereSystemText : MsgContent → Except CohereFmtError String
  | .str s => .ok s
  | .parts ps => .ok (String.intercalate "\n"
      (ps.map fun p => match p with | .text t => t | _ => ""))
  | .null => .error .jsError

/-- Text for the Cohere USER and CHATBOT branches (part_004 lines 149-159):
a string passes through, an array keeps only text parts joined with
newlines, null content stays empty. -/
def cohereMessageText : MsgContent → String
  | .str s => s
  | .parts ps => String.intercalate "\n"
      (ps.filterMap fun p => match p with | .text t => some t | _ => none)
  | .null => ""

/-- All tool calls of the assistant messages of a list that carry a
tool_calls array, flattened in order (part_004 lines 123-126). -/
def assistantToolCalls (messages : List ChatMessage) : List ToolCall :=
  (messages.filter fun m => m.role == "assistant" && m.tool_calls.isSome).flatMap
    fun m => m.tool_calls.getD []

/-- One message processed by _formatMessagesForCohere (part_004 lines
86-178). The history search for a tool result scans the whole message list,
not only earlier messages. -/
def cohereFormatStep (allMessages : List ChatMessage) (acc : CohereAcc)
    (msg : ChatMessage) : Except CohereFmtError CohereAcc := do
  let cohereRole ←
    if msg.role == "user" then pure "USER"
    else if msg.role == "assistant" then pure "CHATBOT"
    else if msg.role == "system" then pure "SYSTEM"
    else if msg.role == "tool" then pure "TOOL"
    else .error .jsError
  if cohereRole == "SYSTEM" then
    let t ← cohereSystemText msg.content
    pure { acc with preamble := some t }
  else if cohereRole == "TOOL" then
    let isArrayContent := match msg.content with | .parts _ => true | _ => false
    if !(truthy msg.tool_call_id) || !isArrayContent then
      .error (.toolError
        "Cohere: \x27tool\x27 role message must have tool_call_id and array content with \x27tool_output\x27."
        msg.name)
    else
      let ps := match msg.content with | .parts ps => ps | _ => []
      match findToolOutput ps with
      | none => .error (.toolError
          "Cohere: \x27tool\x27 role message content must contain a \x27tool_output\x27 part."
          msg.name)
      | some outputContent =>
        match (assistantToolCalls allMessages).find? fun tc => tc.id == msg.tool_call_id with
        | none => .error (.toolError
            ("Cohere: Could not find original tool call for ID " ++ jsOrStr msg.tool_call_id ""
              ++ " to construct TOOL message. Original call details are needed.")
            msg.name)
        | some originalToolCall =>
          match jsonParse (jsOrStr (some originalToolCall.function.arguments) "\x7b\x7d") with
          | none => .error .jsError
          | some params =>
            let outputs := [if isJsObjectLike outputContent then outputContent
                            else .obj [("result", outputContent)]]
            pure { acc with messages := acc.messages ++
              [.tool [{ call := { name := originalToolCall.function.name, parameters := params },
                        outputs := outputs }]] }
  else
    let messageText := cohereMessageText msg.content
    if cohereRole == "CHATBOT" && msg.tool_calls.isSome && (msg.tool_calls.getD []).length > 0 then
      let parsed ← (msg.tool_calls.getD []).mapM fun tc =>
        match jsonParse (jsOrStr (some tc.function.arguments) "\x7b\x7d") with
        | none => (.error .jsError : Except CohereFmtError CohereToolCallOut)
        | some p => pure { name := tc.function.name, parameters := p }
      pure { acc with messages := acc.messages ++
        [.chat "CHATBOT" (jsOrStr (some messageText) " ") (some parsed)] }
    else if messageText != "" then
      pure { acc with messages := acc.messages ++ [.chat cohereRole messageText none] }
    else if cohereRole == "CHATBOT" && messageText == ""
        && (msg.tool_calls.isNone || (msg.tool_calls.getD []).length == 0) then
      pure { acc with messages := acc.messages ++ [.chat "CHATBOT" " " none] }
    else
      pure acc

/-- CohereProvider._formatMessagesForCohere (part_004 lines 80-180). -/
def cohereFormatMessages (messages : List ChatMessage) : Except CohereFmtError CohereAcc :=
  messages.foldlM (cohereFormatStep messages) {}

/-- A tool call in a Cohere chat response: no id, parameters parsed. -/
structure CohereRespToolCall where
  name : String
  parameters : Option JsonV := none

/-- Token counts in the meta object of a Cohere chat response. -/
structure CohereTokens where
  inputTokens : Option Nat := none
  outputTokens : Option Nat := none

/-- The meta object of a Cohere chat response. -/
structure CohereMeta where
  tokens : Option CohereTokens := none

/-- A Cohere chat response. -/
structure CohereChatResponse where
  text : Option String := none
  toolCalls : Option (List CohereRespToolCall) := none
  finishReason : Option String := none
  meta : Option CohereMeta := none

/-- Inbound mapping of CohereProvider.chat (part_004 lines 257-287): text
falls back to null; tool calls get synthesized ids from the name and
Date.now() and stringified parameters; totalTokens is the JavaScript sum
inputTokens + outputTokens, which is NaN when either is absent; finishReason
is UPPER-cased. -/
def cohereChatResult (now : Nat) (response : CohereChatResponse) : GenerationResult :=
  let textContent :=
    match response.text.map jsTrim with
    | some t => if t == "" then none else some t
    | none => none
  let toolCalls : List ToolCall :=
    match response.toolCalls with
    | some tcs => tcs.map fun tc =>
        { id := some (tc.name ++ "-" ++ toString now), type := some "function",
          function := { name := tc.name,
                        arguments := jsonStringify (jsOrJson tc.parameters (.obj [])) } }
    | none => []
  let inTok := (response.meta.bind fun m => m.tokens).bind fun t => t.inputTokens
  let outTok := (response.meta.bind fun m => m.tokens).bind fun t => t.outputTokens
  { text := textContent
    toolCalls := if toolCalls.length > 0 then some toolCalls else none
    usage := some { promptTokens := inTok.map .nat
                    completionTokens := outTok.map .nat
                    totalTokens := some (jsAddTokens inTok outTok) }
    finishReason := response.finishReason.map toUpperAscii }

/-- One generation of a Cohere generate response. -/
structure CohereGeneration where
  text : String
  finishReason : Option String := none

/-- A Cohere generate response. -/
structure CohereGenerateResponse where
  generations : Option (List CohereGeneration) := none

/-- Inbound mapping of CohereProvider.generate (part_004 lines 45-71): the
generate endpoint result has trimmed text, null usage, lower-cased finish
reason and no tool calls; an empty generations array is a request error
carrying the response as cause. -/
def cohereGenerateResult (response : CohereGenerateResponse) :
    Except LLMPlugErrObj GenerationResult :=
  match response.generations.bind List.head? with
  | none => .error (mkLLMPlugRequestError "Cohere API returned no generations."
      (some "Cohere") (some "rawResponse"))
  | some generation =>
    .ok { text := some (jsTrim generation.text)
          toolCalls := none
          usage := none
          finishReason := generation.finishReason.map toLowerAscii }

/-! # HuggingFace provider (src/src/providers/baseProvider.js
lines 798-1039, the version imported by src/src/index.js) -/

/-- The inputs field of a HuggingFace Inference API payload: a plain prompt
string for the text-generation task, or a conversational object. -/
inductive HFInputs where
  | str (s : String) : HFInputs
  | conv (text : String) (past_user_inputs : List String)
      (generated_responses : List String) : HFInputs

/-- The parameters field of a HuggingFace payload; the spread of
options.extraParams is carried in extra. -/
structure HFParameters where
  max_new_tokens : Option Nat := none
  temperature : Option Int := none
  return_full_text : Option Bool := none
  stop_sequences : Option (List String) := none
  extra : Option JsonV := none

/-- The options field of a HuggingFace payload. -/
structure HFCallOptions where
  wait_for_model : Bool := true
  use_cache : Bool := true

/-- A HuggingFace Inference API payload. -/
structure HFPayload where
  inputs : HFInputs
  parameters : HFParameters
  options : HFCallOptions

/-- The conversation object of a HuggingFace conversational response. -/
structure HFConversation where
  generated_responses : List String := []

/-- One HuggingFace response object. -/
structure HFRespObj where
  generated_text : Option String := none
  conversation : Option HFConversation := none

/-- A HuggingFace Inference API response: some models answer with an array
of objects, others with one object. -/
inductive HFResponse where
  | arr (items : List HFRespObj) : HFResponse
  | obj (o : HFRespObj) : HFResponse

/-- An error escaping the HuggingFace methods: an LLMPlug error or an
uncaught JavaScript TypeError from reading properties of null content. -/
inductive HFError where
  | llmplug (e : LLMPlugErrObj) : HFError
  | jsTypeError : HFError

/-- Field access options.extraParams.use_cache modelled on the opaque
extraParams JSON value. -/
def jsonGet (v : Option JsonV) (k : String) : Option JsonV :=
  match v with
  | some (.obj kvs) => kvs.lookup k
  | _ => none

/-- The use_cache call option (lines 896-897): the use_cache field of
extraParams when defined, else true. -/
def hfUseCache (extraParams : Option JsonV) : Bool :=
  match jsonGet extraParams "use_cache" with
  | some v => jsonTruthy v
  | none => true

/-- Content text for the HuggingFace chat fold (line 938): strings pass
through, arrays join the text of text parts with the empty separator, null
content raises a TypeError. -/
def hfContentText : MsgContent → Except HFError String
  | .str s => .ok s
  | .parts ps => .ok (String.join
      (ps.map fun p => match p with | .text t => t | _ => ""))
  | .null => .error .jsTypeError

/-- Prompt text for HuggingFace generate on message-list input (line 880):
role-prefixed lines joined with newlines, followed by an assistant cue.
Parts other than text become empty strings under Array.prototype.join. -/
def hfGeneratePrompt : String ⊕ List ChatMessage → Except HFError String
  | .inl s => .ok s
  | .inr msgs => do
    let lines ← msgs.mapM fun msg => do
      let t ← match msg.content with
        | .str s => pure s
        | .parts ps => pure (String.intercalate "\n"
            (ps.map fun p => match p with | .text t => t | _ => ""))
        | .null => .error HFError.jsTypeError
      pure (msg.role ++ ": " ++ t)
    pure (String.intercalate "\n" lines ++ "\nassistant:")

/-- Parse of the HuggingFace text-generation response (lines 903-910): the
generated_text of the first array item when truthy, else the generated_text
of an object response when truthy, else the empty string. -/
def hfGenerateText (response : HFResponse) : String :=
  match response with
  | .arr items =>
    match items.head? with
    | some h => if truthy h.generated_text then jsOrStr h.generated_text "" else ""
    | none => ""
  | .obj o => if truthy o.generated_text then jsOrStr o.generated_text "" else ""

/-- HuggingFaceProvider.generate (lines 874-923): builds a text-generation
payload with return_full_text false and parses generated_text; usage and
finishReason are always null and no toolCalls field is set. The generate
method does not call chat. -/
def hfGenerate (input : String ⊕ List ChatMessage) (options : GenerationOptions)
    (call : HFPayload → HFResponse) : Except HFError GenerationResult := do
  let prompt ← hfGeneratePrompt input
  let payload : HFPayload :=
    { inputs := .str prompt
      parameters := { max_new_tokens := options.maxTokens
                      temperature := options.temperature
                      return_full_text := some false
                      stop_sequences := options.stopSequences
                      extra := options.extraParams }
      options := { wait_for_model := true, use_cache := hfUseCache options.extraParams } }
  let apiResponse := call payload
  pure { text := some (jsTrim (hfGenerateText apiResponse))
         toolCalls := none
         usage := none
         finishReason := none }

/-- The conversational accumulator of HuggingFaceProvider.chat. -/
structure HFChatAcc where
  past : List String := []
  gen : List String := []
  currentQuery : String := ""
  systemPrompt : String := ""

/-- One message folded by HuggingFaceProvider.chat (lines 937-964). -/
def hfChatFoldStep (acc : HFChatAcc) (msg : ChatMessage) : Except HFError HFChatAcc := do
  let contentText ← hfContentText msg.content
  if msg.role == "system" then
    pure { acc with systemPrompt :=
      acc.systemPrompt ++ (if acc.systemPrompt != "" then "\n" else "") ++ contentText }
  else if msg.role == "user" then
    if acc.currentQuery != "" then
      pure { acc with past := acc.past ++ [acc.currentQuery], gen := acc.gen ++ [""],
                      currentQuery := contentText }
    else
      pure { acc with currentQuery := contentText }
  else if msg.role == "assistant" then
    if acc.currentQuery != "" then
      pure { acc with past := acc.past ++ [acc.currentQuery], gen := acc.gen ++ [contentText],
                      currentQuery := "" }
    else
      let gen2 := acc.gen ++ [contentText]
      let past2 := if acc.past.length < gen2.length then acc.past ++ [""] else acc.past
      pure { acc with past := past2, gen := gen2 }
  else
    pure acc

/-- Parse of the HuggingFace conversational response (lines 999-1009):
generated_text when truthy, else the last new generated response when the
conversation grew, else the empty string. -/
def hfChatText (priorGenCount : Nat) (response : HFResponse) : String :=
  match response with
  | .obj o =>
    if truthy o.generated_text then jsOrStr o.generated_text ""
    else
      match o.conversation with
      | some conv =>
        if conv.generated_responses.length > priorGenCount then
          jsOrStr conv.generated_responses.getLast? ""
        else ""
      | none => ""
  | .arr _ => ""

/-- HuggingFaceProvider.chat (lines 930-1020): folds the messages into a
conversational payload, prepends the system prompt to the current query,
throws a request error when no current query remains, and parses the
response; usage and finishReason are always null and no toolCalls field is
set. The trim of the parsed text happens inside the branches of the source;
for the empty fallback the two coincide. -/
def hfChat (messages : List ChatMessage) (options : GenerationOptions)
    (call : HFPayload → HFResponse) : Except HFError GenerationResult := do
  let acc ← messages.foldlM hfChatFoldStep {}
  let currentQuery :=
    if acc.systemPrompt != "" then acc.systemPrompt ++ "\n" ++ acc.currentQuery
    else acc.currentQuery
  if currentQuery == "" then
    .error (.llmplug (mkLLMPlugRequestError
      "HuggingFace chat: No current user message provided to generate a response for."
      (some "HuggingFace") none))
  else
    let payload : HFPayload :=
      { inputs := .conv currentQuery acc.past acc.gen
        parameters := { max_new_tokens := options.maxTokens
                        temperature := options.temperature
                        stop_sequences := options.stopSequences
                        extra := options.extraParams }
        options := { wait_for_model := true, use_cache := hfUseCache options.extraParams } }
    let apiResponse := call payload
    pure { text := some (jsTrim (hfChatText acc.gen.length apiResponse))
           toolCalls := none
           usage := none
           finishReason := none }

/-! # Multimodal content resolver

The providers call this._fetchAndBase64Image, whose definition is not among
the sources under src; it is modelled from the spec here. -/

/-- The base64 alphabet. -/
def base64Table : List Char :=
  "ABCDEFGHIJKLMNOPQRSTUVWXYZabcdefghijklmnopqrstuvwxyz0123456789+/".toList

/-- The base64 digit for a 6-bit value. -/
def base64CharAt (n : Nat) : Char := base64Table.getD (n % 64) 'A'

/-- Standard base64 encoding of a byte sequence, with padding. -/
def base64Encode : List Nat → String
  | [] => ""
  | [a] =>
    let A := a % 256
    String.mk [base64CharAt (A / 4), base64CharAt ((A % 4) * 16)] ++ "=="
  | [a, b] =>
    let A := a % 256
    let B := b % 256
    String.mk [base64CharAt (A / 4), base64CharAt ((A % 4) * 16 + B / 16),
               base64CharAt ((B % 16) * 4)] ++ "="
  | a :: b :: c :: rest =>
    let A := a % 256
    let B := b % 256
    let C := c % 256
    String.mk [base64CharAt (A / 4), base64CharAt ((A % 4) * 16 + B / 16),
               base64CharAt ((B % 16) * 4 + C / 64), base64CharAt (C % 64)]
      ++ base64Encode rest

/-- Modelled from the spec: the outcome of the single fetch of a remote
image URL, as consumed by the missing _fetchAndBase64Image helper. -/
inductive FetchOutcome where
  | unreachable : FetchOutcome
  | response (status : Nat) (contentType : Option String) (bytes : List Nat) : FetchOutcome

/-- Modelled from the spec: the failure modes of the content resolver. -/
inductive ResolverError where
  | retrievalError (message : String) : ResolverError
  | unsupportedMediaError (message : String) : ResolverError

/-- Modelled from the spec: the accepted image formats of the resolver
(the image kinds the providers embed as base64). -/
def acceptedImageMimes : List String :=
  ["image/jpeg", "image/png", "image/gif", "image/webp"]

/-- Modelled from the spec: byte-signature sniffing of an image type. -/
def sniffImageMime : List Nat → Option String
  | 0xFF :: 0xD8 :: 0xFF :: _ => some "image/jpeg"
  | 0x89 :: 0x50 :: 0x4E :: 0x47 :: _ => some "image/png"
  | 0x47 :: 0x49 :: 0x46 :: _ => some "image/gif"
  | 0x52 :: 0x49 :: 0x46 :: 0x46 :: _ :: _ :: _ :: _ ::
      0x57 :: 0x45 :: 0x42 :: 0x50 :: _ => some "image/webp"
  | _ => none

/-- Modelled from the spec: _fetchAndBase64Image, absent from the sources
under src (only its call sites in the Anthropic and Google providers are
present). Per section 4.1 of the spec it performs one retrieval, takes the
content type from the response header with a fallback to byte-signature
sniffing when the header is absent or not an accepted image type, fails
with RetrievalError on an unreachable URL or a non-2xx status, fails with
UnsupportedMediaError when the resolved type is not an accepted image
format, and otherwise produces the (mimeType, base64Payload) pair. -/
def fetchAndBase64Image : FetchOutcome → Except ResolverError (String × String)
  | .unreachable => .error (.retrievalError "Failed to fetch image: URL unreachable.")
  | .response status contentType bytes =>
    if status < 200 ∨ 300 ≤ status then
      .error (.retrievalError ("Failed to fetch image: HTTP status " ++ toString status ++ "."))
    else
      let headerMime :=
        match contentType with
        | some t => if acceptedImageMimes.contains t then some t else none
        | none => none
      match headerMime with
      | some m => .ok (m, base64Encode bytes)
      | none =>
        match sniffImageMime bytes with
        | some m =>
          if acceptedImageMimes.contains m then .ok (m, base64Encode bytes)
          else .error (.unsupportedMediaError ("Unsupported media type: " ++ m))
        | none => .error (.unsupportedMediaError "Unsupported media type: not a recognized image format.")

/-! # Byte-for-byte concatenation -/

/-- In-order concatenation of a list of strings. -/
def concatStrings : List String → String
  | [] => ""
  | s :: rest => s ++ concatStrings rest

/-! # Theorems -/

/-- C7: the claim says every error triggered by an underlying vendor or SDK
error retains it as originalError, including configuration errors raised
during provider construction. The LLMPlugConfigurationError constructor
(errors.js lines 14-19) declares no cause parameter and passes none to the
base class, so the cause its call sites pass (for example
openaiProvider.js line 14) is dropped and originalError stays null, while
LLMPlugRequestError and the base LLMPlugError do retain it. -/
theorem C7_configuration_error_drops_cause (message provider cause : String) :
    (mkLLMPlugConfigurationError message (some provider) (some cause)).originalError = none
    ∧ (mkLLMPlugRequestError message (some provider) (some cause)).originalError = some cause
    ∧ (mkLLMPlugError message (some provider) (some cause)).originalError = some cause :=
  ⟨rfl, rfl, rfl⟩

/-- C9 counterexample: for the unknown name nosuch, getProvider throws the
base LLMPlugError, whose class name is not LLMPlugConfigurationError, so the
claim that an unknown lower-cased name raises a configuration error is false
at this input (the message does list all supported provider names). -/
theorem C9_counterexample :
    getProvider "nosuch" = .error (mkLLMPlugError
      "Unsupported provider: nosuch. Supported providers are: openai, anthropic, google, huggingface"
      none none)
    ∧ (mkLLMPlugError
      "Unsupported provider: nosuch. Supported providers are: openai, anthropic, google, huggingface"
      none none).name = "LLMPlugError"
    ∧ "LLMPlugError" ≠ "LLMPlugConfigurationError" := by
  refine ⟨rfl, rfl, by decide⟩

/-- C9 as amended: getProvider looks the name up lower-cased, so two names
with the same lower-casing select the same provider; a name whose
lower-casing is absent from the registry yields an error of class
LLMPlugError (not LLMPlugConfigurationError) whose message lists all
supported provider names, and the ok value carrying a constructed provider
is never produced in that case. -/
theorem C9_registry_lookup (s t : String) (h : toLowerAscii s = toLowerAscii t) :
    (getProvider s).toOption = (getProvider t).toOption
    ∧ ((PROVIDERS.lookup (toLowerAscii s)).isNone →
        getProvider s = .error (mkLLMPlugError
          ("Unsupported provider: " ++ s ++ ". Supported providers are: "
            ++ joinCommaSpace (PROVIDERS.map (fun p => p.1))) none none)) := by
  constructor
  · unfold getProvider
    rw [h]
    cases PROVIDERS.lookup (toLowerAscii t) <;> rfl
  · intro hnone
    unfold getProvider
    cases hl : PROVIDERS.lookup (toLowerAscii s) with
    | none => rfl
    | some tag => rw [hl] at hnone; simp at hnone

/-- C9 witness: the amended theorem applied to the names OpenAI and openai,
which differ only in case. -/
theorem C9_registry_lookup_witness :
    (getProvider "OpenAI").toOption = (getProvider "openai").toOption :=
  (C9_registry_lookup "OpenAI" "openai" rfl).1

/-- C8 (modelled from the spec, since _fetchAndBase64Image is not among the
sources under src): the resolver consumes the outcome of one retrieval and
produces the (mimeType, base64Payload) pair; it fails with RetrievalError
when the URL is unreachable or the response status is not 2xx, and with
UnsupportedMediaError when the header is no accepted image type and the
sniffed byte signature is not an accepted image format. -/
theorem C8_resolver_classification :
    (fetchAndBase64Image .unreachable
      = .error (.retrievalError "Failed to fetch image: URL unreachable."))
    ∧ (∀ status contentType bytes, status < 200 ∨ 300 ≤ status →
        fetchAndBase64Image (.response status contentType bytes)
          = .error (.retrievalError
              ("Failed to fetch image: HTTP status " ++ toString status ++ ".")))
    ∧ (∀ status bytes, 200 ≤ status → status < 300 → sniffImageMime bytes = none →
        fetchAndBase64Image (.response status none bytes)
          = .error (.unsupportedMediaError
              "Unsupported media type: not a recognized image format."))
    ∧ (∀ status bytes m, 200 ≤ status → status < 300 → sniffImageMime bytes = some m →
        acceptedImageMimes.contains m = true →
        fetchAndBase64Image (.response status none bytes) = .ok (m, base64Encode bytes))
    ∧ (∀ status t bytes, 200 ≤ status → status < 300 →
        acceptedImageMimes.contains t = true →
        fetchAndBase64Image (.response status (some t) bytes) = .ok (t, base64Encode bytes)) := by
  refine ⟨rfl, ?_, ?_, ?_, ?_⟩
  · intro status contentType bytes h
    have hcond : (status < 200 ∨ 300 ≤ status) = True := by simp [h]
    simp [fetchAndBase64Image, hcond]
  · intro status bytes h1 h2 hsniff
    have hcond : (status < 200 ∨ 300 ≤ status) = False := by
      simp; omega
    simp [fetchAndBase64Image, hcond, hsniff]
  · intro status bytes m h1 h2 hsniff hacc
    have hcond : (status < 200 ∨ 300 ≤ status) = False := by
      simp; omega
    have hmem : m ∈ acceptedImageMimes := by simpa using hacc
    simp [fetchAndBase64Image, hcond, hsniff, hmem]
  · intro status t bytes h1 h2 hacc
    have hcond : (status < 200 ∨ 300 ≤ status) = False := by
      simp; omega
    have hmem : t ∈ acceptedImageMimes := by simpa using hacc
    simp [fetchAndBase64Image, hcond, hmem]

/-- C8 witness: the resolver applied to a 200 response carrying a PNG
content-type header and the empty byte payload. -/
theorem C8_resolver_classification_witness :
    fetchAndBase64Image (.response 200 (some "image/png") [])
      = .ok ("image/png", base64Encode []) :=
  C8_resolver_classification.2.2.2.2 200 "image/png" [] (by omega) (by omega) (by decide)

/-- C1 counterexample: the claim says finishReason always equals the vendor
string lower-cased. CohereProvider.chat UPPER-cases it (part_004 line 279):
on a response whose finishReason is COMPLETE the result keeps COMPLETE,
which is not the lower-cased vendor string complete. -/
theorem C1_counterexample :
    (cohereChatResult 0 { text := some "4", finishReason := some "COMPLETE" }).finishReason
      = some "COMPLETE"
    ∧ toLowerAscii "COMPLETE" = "complete"
    ∧ (some "COMPLETE" : Option String) ≠ some "complete" := by
  refine ⟨rfl, rfl, by decide⟩

/-- C1 as amended: the vendor finish-reason vocabulary is never remapped to
a unified enum, but the case handling differs per provider: OpenAI chat,
Anthropic chat and Google chat pass the vendor string through verbatim with
no case conversion, Cohere chat upper-cases it, and the generic
OpenAI-compatible chat and Cohere generate lower-case it. -/
theorem C1_finishReason_per_provider (providerName model : String) (now : Nat) :
    (∀ completion : OAICompletion,
        (openaiChatResult completion).finishReason
          = completion.choices.head?.bind fun c => c.finish_reason)
    ∧ (∀ response : AnthropicResponse,
        (anthropicChatResult response).finishReason = response.stop_reason)
    ∧ (∀ response : GoogleResponse,
        (googleChatResult now response).finishReason
          = (response.candidates.bind List.head?).bind fun c => c.finishReason)
    ∧ (∀ response : CohereChatResponse,
        (cohereChatResult now response).finishReason
          = response.finishReason.map toUpperAscii)
    ∧ (∀ completion : OAICompletion, ∀ choice : OAIChoice,
        completion.choices.head? = some choice →
        ∃ r, genericChatResult providerName model now completion = .ok r
          ∧ r.finishReason = choice.finish_reason.map toLowerAscii)
    ∧ (∀ response : CohereGenerateResponse, ∀ g : CohereGeneration,
        response.generations.bind List.head? = some g →
        ∃ r, cohereGenerateResult response = .ok r
          ∧ r.finishReason = g.finishReason.map toLowerAscii) := by
  refine ⟨fun _ => rfl, fun _ => rfl, fun _ => rfl, fun _ => rfl, ?_, ?_⟩
  · intro completion choice hc
    simp only [genericChatResult, hc]
    exact ⟨_, rfl, rfl⟩
  · intro response g hg
    simp only [cohereGenerateResult, hg]
    exact ⟨_, rfl, rfl⟩

/-- C1 witness: the amended theorem applied to a generic-provider completion
whose finish_reason is STOP, lower-cased to stop in the result. -/
theorem C1_finishReason_per_provider_witness :
    ∃ r, genericChatResult "LlamaCppServer" "m" 0
        { choices := [{ finish_reason := some "STOP" }] } = .ok r
      ∧ r.finishReason = (some "STOP").map toLowerAscii :=
  (C1_finishReason_per_provider "LlamaCppServer" "m" 0).2.2.2.2.1
    { choices := [{ finish_reason := some "STOP" }] }
    { finish_reason := some "STOP" } rfl

/-- C4 counterexample: the claim says totalTokens is never derived as
promptTokens + completionTokens when the vendor reports no total. The
Anthropic usage payload carries no total at all, yet AnthropicProvider.chat
(lines 189-193) computes totalTokens as input_tokens + output_tokens: on a
response reporting 5 input and 1 output tokens the result carries total 6
instead of leaving it undefined. -/
theorem C4_counterexample :
    (anthropicChatResult
        { usage := some { input_tokens := some 5, output_tokens := some 1 } }).usage
      = some { promptTokens := some (.nat 5), completionTokens := some (.nat 1),
               totalTokens := some (.nat 6) }
    ∧ (anthropicChatResult
        { usage := some { input_tokens := some 5, output_tokens := some 1 } }).usage
      ≠ some { promptTokens := some (.nat 5), completionTokens := some (.nat 1),
               totalTokens := none } := by
  refine ⟨rfl, by decide⟩

/-- C4 as amended: OpenAI chat and Google chat read each usage field from
the vendor payload or leave it undefined (Google with a zero-is-falsy
fallback from candidatesTokenCount to the candidate tokenCount); Anthropic
chat always computes totalTokens as input_tokens + output_tokens with absent
counts read as 0; Cohere chat computes totalTokens as the JavaScript sum
inputTokens + outputTokens, NaN when either is absent; Cohere generate
leaves the whole usage record null. -/
theorem C4_usage_per_provider (now : Nat) :
    (∀ completion : OAICompletion,
        (openaiChatResult completion).usage = some
          { promptTokens := (completion.usage.bind fun u => u.prompt_tokens).map .nat
            completionTokens := (completion.usage.bind fun u => u.completion_tokens).map .nat
            totalTokens := (completion.usage.bind fun u => u.total_tokens).map .nat })
    ∧ (∀ response : GoogleResponse,
        (googleChatResult now response).usage = some
          { promptTokens := (response.usageMetadata.bind fun u => u.promptTokenCount).map .nat
            completionTokens := (jsOrNum
              (response.usageMetadata.bind fun u => u.candidatesTokenCount)
              ((response.candidates.bind List.head?).bind fun c => c.tokenCount)).map .nat
            totalTokens := (response.usageMetadata.bind fun u => u.totalTokenCount).map .nat })
    ∧ (∀ response : AnthropicResponse,
        (anthropicChatResult response).usage = some
          { promptTokens := (response.usage.bind fun u => u.input_tokens).map .nat
            completionTokens := (response.usage.bind fun u => u.output_tokens).map .nat
            totalTokens := some (.nat ((response.usage.bind fun u => u.input_tokens).getD 0
              + (response.usage.bind fun u => u.output_tokens).getD 0)) })
    ∧ (∀ response : CohereChatResponse,
        (cohereChatResult now response).usage = some
          { promptTokens := ((response.meta.bind fun m => m.tokens).bind fun t => t.inputTokens).map .nat
            completionTokens := ((response.meta.bind fun m => m.tokens).bind fun t => t.outputTokens).map .nat
            totalTokens := some (jsAddTokens
              ((response.meta.bind fun m => m.tokens).bind fun t => t.inputTokens)
              ((response.meta.bind fun m => m.tokens).bind fun t => t.outputTokens)) })
    ∧ (∀ response : CohereGenerateResponse, ∀ g : CohereGeneration,
        response.generations.bind List.head? = some g →
        ∃ r, cohereGenerateResult response = .ok r ∧ r.usage = none) := by
  refine ⟨fun _ => rfl, fun _ => rfl, fun _ => rfl, fun _ => rfl, ?_⟩
  intro response g hg
  simp only [cohereGenerateResult, hg]
  exact ⟨_, rfl, rfl⟩

/-- C4 witness: the amended theorem applied to a Cohere generate response
with one generation; its usage is null. -/
theorem C4_usage_per_provider_witness :
    ∃ r, cohereGenerateResult { generations := some [{ text := "hi" }] } = .ok r
      ∧ r.usage = none :=
  (C4_usage_per_provider 0).2.2.2.2
    { generations := some [{ text := "hi" }] } { text := "hi" } rfl

/-- C10 counterexample: the claim says every provider other than OpenAI
returns text null when the vendor response omits content. HuggingFace chat
(baseProvider.js lines 999-1016) initializes the text to the empty string
and returns it unchanged on a response without generated_text, so its
GenerationResult carries the empty string, not null. -/
theorem C10_counterexample :
    hfChat [{ role := "user", content := .str "hi" }] {} (fun _ => .obj {})
      = .ok { text := some "", toolCalls := none, usage := none, finishReason := none }
    ∧ (some "" : Option String) ≠ none := by
  refine ⟨rfl, by decide⟩

/-- C10 as amended: when the vendor response omits message content and tool
calls, OpenAI chat returns the empty string and the empty array; the generic
OpenAI-compatible chat, OpenRouter chat, Anthropic chat, Google chat and
Cohere chat return text null and toolCalls undefined; HuggingFace chat
instead returns the empty string (and never sets toolCalls). -/
theorem C10_empty_content_shapes (providerName model : String) (now : Nat) :
    (∀ completion : OAICompletion,
        ((completion.choices.head?.bind fun c => c.message).bind fun m => m.content) = none →
        ((completion.choices.head?.bind fun c => c.message).bind fun m => m.tool_calls) = none →
        (openaiChatResult completion).text = some ""
          ∧ (openaiChatResult completion).toolCalls = some [])
    ∧ (∀ completion : OAICompletion, ∀ choice : OAIChoice,
        completion.choices.head? = some choice → choice.message = none →
        ∃ r, genericChatResult providerName model now completion = .ok r
          ∧ r.text = none ∧ r.toolCalls = none)
    ∧ (∀ completion : OAICompletion, ∀ choice : OAIChoice,
        completion.choices.head? = some choice → choice.message = none →
        ∃ r, openRouterChatResult completion = .ok r ∧ r.text = none ∧ r.toolCalls = none)
    ∧ (∀ response : AnthropicResponse, response.content = [] →
        (anthropicChatResult response).text = none
          ∧ (anthropicChatResult response).toolCalls = none)
    ∧ (∀ response : GoogleResponse, response.candidates = none →
        (googleChatResult now response).text = none
          ∧ (googleChatResult now response).toolCalls = none)
    ∧ (∀ response : CohereChatResponse, response.text = none → response.toolCalls = none →
        (cohereChatResult now response).text = none
          ∧ (cohereChatResult now response).toolCalls = none)
    ∧ (∀ priorGen : Nat, hfChatText priorGen (.obj {}) = "") := by
  refine ⟨?_, ?_, ?_, ?_, ?_, ?_, fun _ => rfl⟩
  · intro completion h1 h2
    simp [openaiChatResult, h1, h2, jsOrStr]
  · intro completion choice hc hm
    simp only [genericChatResult, hc, hm]
    exact ⟨_, rfl, rfl, rfl⟩
  · intro completion choice hc hm
    simp only [openRouterChatResult, hc, hm]
    exact ⟨_, rfl, rfl, rfl⟩
  · intro response h
    simp only [anthropicChatResult, h]
    exact ⟨rfl, rfl⟩
  · intro response h
    simp only [googleChatResult, h]
    exact ⟨rfl, rfl⟩
  · intro response h1 h2
    simp only [cohereChatResult, h1, h2]
    exact ⟨rfl, rfl⟩

/-- C10 witness: the amended theorem applied to the empty OpenAI completion,
whose result carries the empty string and the empty array. -/
theorem C10_empty_content_shapes_witness :
    (openaiChatResult {}).text = some "" ∧ (openaiChatResult {}).toolCalls = some [] :=
  (C10_empty_content_shapes "p" "m" 0).1 {} rfl rfl

/-- C5 counterexample transport: one HuggingFace endpoint behavior that
answers A to a text-generation payload and B to a conversational payload. -/
def c5Transport : HFPayload → HFResponse := fun payload =>
  match payload.inputs with
  | .str _ => .obj { generated_text := some "A" }
  | .conv _ _ _ => .obj { generated_text := some "B" }

/-- C5 counterexample: HuggingFaceProvider.generate does not wrap the prompt
and delegate to chat: generate posts a text-generation payload with the bare
prompt while chat posts a conversational payload, so under one and the same
endpoint behavior the two calls return different GenerationResults for the
bare prompt p. -/
theorem C5_counterexample :
    hfGenerate (.inl "p") {} c5Transport
      = .ok { text := some "A", toolCalls := none, usage := none, finishReason := none }
    ∧ hfChat [{ role := "user", content := .str "p" }] {} c5Transport
      = .ok { text := some "B", toolCalls := none, usage := none, finishReason := none }
    ∧ ({ text := some "A", toolCalls := none, usage := none, finishReason := none }
        : GenerationResult)
      ≠ { text := some "B", toolCalls := none, usage := none, finishReason := none } := by
  refine ⟨rfl, rfl, by decide⟩

/-- C5 as amended: OpenAIProvider.generate wraps a bare prompt as a
one-message user list and delegates to chat with identical options and
transport, returning the identical GenerationResult (Anthropic, OpenRouter,
Ollama and the generic provider delegate the same way); HuggingFaceProvider
and CohereProvider instead route generate to a different endpoint payload,
so for them the equation fails. -/
theorem C5_generate_delegates_to_chat (defaultModel : String)
    (normalize : MsgContent → OAIContent) (p : String)
    (options : GenerationOptions) (transport : OAIRequest → OAICompletion) :
    openaiGenerate defaultModel normalize (.inl p) options transport
      = openaiChat defaultModel normalize
          [{ role := "user", content := .str p }] options transport := rfl

/-- Concatenation distributes over list append. -/
theorem concatStrings_append (a b : List String) :
    concatStrings (a ++ b) = concatStrings a ++ concatStrings b := by
  induction a with
  | nil => simp [concatStrings]
  | cons x xs ih => simp [concatStrings, ih, String.append_assoc]

/-- The text field yielded by the OpenAI stream step is the truthy filter of
the text-delta fragment of the event. -/
theorem openaiStreamStep_text (c : OAIStreamChunk) :
    (openaiStreamStep c).text
      = match (c.choices.head?.bind fun ch => ch.delta).bind fun d => d.content with
        | some s => if s == "" then none else some s
        | none => none := rfl

/-- Drained text of the OpenAI stream: one cons step. -/
theorem openai_stream_text_cons (c : OAIStreamChunk) (cs : List OAIStreamChunk) :
    concatStrings ((openaiChatStream (c :: cs)).filterMap fun o => o.text)
      = (match (c.choices.head?.bind fun ch => ch.delta).bind fun d => d.content with
         | some s => s
         | none => "")
        ++ concatStrings ((openaiChatStream cs).filterMap fun o => o.text) := by
  simp only [openaiChatStream, List.map_cons, List.filterMap_cons, openaiStreamStep_text]
  cases hf : (c.choices.head?.bind fun ch => ch.delta).bind fun d => d.content with
  | none => simp [concatStrings]
  | some s =>
    by_cases hs : s = ""
    · subst hs
      simp [concatStrings]
    · have : (s == "") = false := by simp [hs]
      simp [this, concatStrings]

/-- The in-order fragments of a stream: one cons step. -/
theorem streamTextFragments_cons (c : OAIStreamChunk) (cs : List OAIStreamChunk) :
    concatStrings (streamTextFragments (c :: cs))
      = (match (c.choices.head?.bind fun ch => ch.delta).bind fun d => d.content with
         | some s => s
         | none => "")
        ++ concatStrings (streamTextFragments cs) := by
  simp only [streamTextFragments, List.filterMap_cons]
  cases hf : (c.choices.head?.bind fun ch => ch.delta).bind fun d => d.content with
  | none => simp [concatStrings]
  | some s => simp [concatStrings]

/-- The generic stream step on an event with a choice always yields a chunk,
whose text is the truthy filter of the text-delta fragment, independent of
the accumulated state. -/
theorem genericStreamStep_yield (st : GState) (c : OAIStreamChunk)
    (choice : OAIStreamChoice) (hc : c.choices.head? = some choice) :
    ∃ out, (genericStreamStep st c).2 = some out
      ∧ out.text = match choice.delta.bind fun d => d.content with
          | some s => if s == "" then none else some s
          | none => none := by
  simp only [genericStreamStep, hc]
  exact ⟨_, rfl, rfl⟩

/-- Drained text of the generic stream from any accumulated state equals the
in-order concatenation of the fragments. -/
theorem generic_go_text (cs : List OAIStreamChunk) : ∀ st : GState,
    concatStrings ((genericChatStreamGo st cs).filterMap fun o => o.text)
      = concatStrings (streamTextFragments cs) := by
  induction cs with
  | nil => intro st; rfl
  | cons c cs ih =>
    intro st
    rw [streamTextFragments_cons]
    cases hc : c.choices.head? with
    | none =>
      have hstep : genericStreamStep st c = (st, none) := by
        simp [genericStreamStep, hc]
      have hnone : (c.choices.head?.bind fun ch => ch.delta).bind (fun d => d.content) = none := by
        rw [hc]; rfl
      simp only [genericChatStreamGo, hstep, hnone]
      rw [ih st]
      exact (String.empty_append _).symm
    | some choice =>
      obtain ⟨out, hout, htext⟩ := genericStreamStep_yield st c choice hc
      rcases hstep : genericStreamStep st c with ⟨st2, o2⟩
      rw [hstep] at hout
      simp only at hout
      have hgo : genericChatStreamGo st (c :: cs) = out :: genericChatStreamGo st2 cs := by
        simp only [genericChatStreamGo, hstep, hout]
      rw [hgo]
      rw [List.filterMap_cons]
      simp only [Option.some_bind]
      cases hf : choice.delta.bind fun d => d.content with
      | none =>
        rw [hf] at htext
        simp only at htext
        rw [htext]
        rw [ih st2]
        exact (String.empty_append _).symm
      | some s =>
        rw [hf] at htext
        simp only at htext
        by_cases hs : s = ""
        · subst hs
          simp only [beq_self_eq_true, if_true] at htext
          rw [htext, ih st2]
          exact (String.empty_append _).symm
        · have hb : (s == "") = false := by simp [hs]
          rw [hb] at htext
          simp only [Bool.false_eq_true, if_false] at htext
          rw [htext]
          simp only [concatStrings]
          rw [ih st2]

/-- C2: for every drained stream, the concatenation of the text fields of
the yielded chunks equals the in-order, byte-for-byte concatenation of the
text-delta fragments of the vendor events, both for OpenAIProvider
chatStream and for GenericOpenAICompatibleProvider chatStream: each fragment
is forwarded unbuffered in arrival order (an empty fragment yields no text
field and contributes nothing to either side). -/
theorem C2_stream_text_concatenation (chunks : List OAIStreamChunk) :
    concatStrings ((openaiChatStream chunks).filterMap fun o => o.text)
      = concatStrings (streamTextFragments chunks)
    ∧ concatStrings ((genericChatStream chunks).filterMap fun o => o.text)
      = concatStrings (streamTextFragments chunks) := by
  constructor
  · induction chunks with
    | nil => rfl
    | cons c cs ih => rw [openai_stream_text_cons, streamTextFragments_cons, ih]
  · exact generic_go_text chunks []

/-- Lookup after setting the same key. -/
theorem gstateGet_gstateSet_self (st : GState) (k : Nat) (v : StreamToolCall) :
    gstateGet (gstateSet st k v) k = some v := by
  induction st with
  | nil => simp [gstateSet, gstateGet, List.lookup]
  | cons p rest ih =>
    rcases p with ⟨k0, v0⟩
    by_cases h : k0 = k
    · subst h
      simp [gstateSet, gstateGet, List.lookup]
    · simp only [gstateSet, if_neg h]
      simp only [gstateGet, List.lookup] at ih ⊢
      have hb : (k == k0) = false := by
        simp [Ne.symm h]
      rw [hb]
      exact ih

/-- Lookup of a different key after a set. -/
theorem gstateGet_gstateSet_other (st : GState) (k k2 : Nat) (v : StreamToolCall)
    (h : k2 ≠ k) : gstateGet (gstateSet st k v) k2 = gstateGet st k2 := by
  have hb : (k2 == k) = false := by simp [h]
  induction st with
  | nil =>
    simp only [gstateSet, gstateGet, List.lookup]
    rw [hb]
  | cons p rest ih =>
    rcases p with ⟨k0, v0⟩
    by_cases h0 : k0 = k
    · subst h0
      simp only [gstateSet, if_pos rfl]
      simp only [gstateGet, List.lookup]
      rw [hb]
    · simp only [gstateSet, if_neg h0]
      simp only [gstateGet, List.lookup] at ih ⊢
      cases hb2 : (k2 == k0) with
      | true => rfl
      | false => exact ih

/-- First streamed event of the C3 example: announces the call under the
stable id call_1 at index 0 with the opening arguments fragment. -/
def c3Delta1 : TCDelta :=
  { index := 0, id := some "call_1",
    function := some { name := some "get", arguments := some "\x7b\"a\":" } }

/-- Second streamed event of the C3 example: the closing arguments fragment
for index 0, with no id. -/
def c3Delta2 : TCDelta :=
  { index := 0, function := some { arguments := some "1\x7d" } }

/-- The C3 example stream, first vendor event. -/
def c3Event1 : OAIStreamChunk :=
  { choices := [{ delta := some { tool_calls := some [c3Delta1] } }] }

/-- The C3 example stream, second vendor event. -/
def c3Event2 : OAIStreamChunk :=
  { choices := [{ delta := some { tool_calls := some [c3Delta2] } }] }

/-- C3 counterexample: OpenAIProvider.chatStream (lines 166-175) keeps no
accumulated tool-call state at all: it forwards each argument fragment
as-is, so the call streamed as the two fragments of the example yields
chunks carrying only the raw fragments and nothing ever holds the
concatenated arguments string, contradicting the claim for this provider. -/
theorem C3_counterexample :
    (openaiChatStream [c3Event1, c3Event2]).map
        (fun o => (o.toolCalls.getD []).map fun tc => tc.function.arguments)
      = [["\x7b\"a\":"], ["1\x7d"]]
    ∧ ("\x7b\"a\":" : String) ≠ "\x7b\"a\":1\x7d"
    ∧ ("1\x7d" : String) ≠ "\x7b\"a\":1\x7d" := by
  refine ⟨rfl, by decide, by decide⟩

/-- C3 as amended, for the generic streaming reconstructor
(GenericOpenAICompatibleProvider.chatStream): a truthy id starts the entry
for its index with the announcing fragment; every later fragment for an
announced index extends the stored arguments by exactly that fragment in
arrival order; entries of other indices are untouched; and the example call
streamed as two fragments under index 0 is snapshotted first with the
opening fragment and finally with the full concatenation, which parses as
valid JSON. -/
theorem C3_argument_accumulation_invariant :
    (∀ (st : GState) (d : TCDelta), truthy d.id = true →
        gstateGet (applyTcDelta st d) d.index = some
          { id := d.id, type := some "function",
            function := { name := some (jsOrStr (d.function.bind fun f => f.name) ""),
                          arguments := jsOrStr (d.function.bind fun f => f.arguments) "" } })
    ∧ (∀ (st : GState) (d : TCDelta) (tc : StreamToolCall) (f : TCDeltaFn),
        truthy d.id = false → gstateGet st d.index = some tc → d.function = some f →
        (gstateGet (applyTcDelta st d) d.index).map (fun tc2 => tc2.function.arguments)
          = some (tc.function.arguments
              ++ (if truthy f.arguments then f.arguments.getD "" else "")))
    ∧ (∀ (st : GState) (d : TCDelta) (k : Nat), k ≠ d.index →
        gstateGet (applyTcDelta st d) k = gstateGet st k)
    ∧ ((genericChatStream [c3Event1, c3Event2]).map
          (fun o => (o.toolCalls.getD []).map fun tc => tc.function.arguments)
        = [["\x7b\"a\":"], ["\x7b\"a\":1\x7d"]])
    ∧ jsonParse "\x7b\"a\":1\x7d" = some (.obj [("a", .num 1)]) := by
  refine ⟨?_, ?_, ?_, rfl, rfl⟩
  · intro st d h
    simp [applyTcDelta, h, gstateGet_gstateSet_self]
  · intro st d tc f hid hget hf
    simp only [applyTcDelta, hid, Bool.false_eq_true, if_false, hget, hf]
    cases hn : truthy f.name <;> cases ha : truthy f.arguments <;>
      simp [hn, ha, gstateGet_gstateSet_self, String.append_empty]
  · intro st d k hk
    simp only [applyTcDelta]
    cases truthy d.id with
    | true =>
      simp only [if_true]
      exact gstateGet_gstateSet_other st d.index k _ hk
    | false =>
      simp only [Bool.false_eq_true, if_false]
      cases hget : gstateGet st d.index with
      | none => rfl
      | some tc =>
        cases hf : d.function with
        | none => rfl
        | some f => exact gstateGet_gstateSet_other st d.index k _ hk

/-- C3 witness: the amended theorem applied to the empty state and the
announcing event of the example. -/
theorem C3_argument_accumulation_invariant_witness :
    gstateGet (applyTcDelta [] c3Delta1) c3Delta1.index = some
      { id := c3Delta1.id, type := some "function",
        function := { name := some (jsOrStr (c3Delta1.function.bind fun f => f.name) ""),
                      arguments := jsOrStr (c3Delta1.function.bind fun f => f.arguments) "" } } :=
  C3_argument_accumulation_invariant.1 [] c3Delta1 rfl

/-- Content normalization used in the C6 example: string content passes
through, other content is immaterial to the example. -/
def c6Normalize : MsgContent → OAIContent
  | .str s => .str s
  | .parts _ => .null
  | .null => .null

/-- C6 example: an assistant message announcing the only tool call of the
conversation, with id call_1. -/
def c6Assistant : ChatMessage :=
  { role := "assistant", content := .null,
    tool_calls := some [{ id := some "call_1", type := some "function",
                          function := { name := "get", arguments := "\x7b\x7d" } }] }

/-- C6 example: a tool message answering the unknown id call_2. -/
def c6Tool : ChatMessage :=
  { role := "tool", content := .str "42", name := some "get",
    tool_call_id := some "call_2" }

/-- C6 counterexample: OpenAIProvider._formatMessagesForOpenAI performs no
validation of tool_call_id against earlier assistant tool calls and cannot
fail at all: on a conversation whose only announced id is call_1, the tool
message answering call_2 is passed through to the vendor unchanged, not
rejected with a ToolError. -/
theorem C6_counterexample :
    (formatMessagesForOpenAI c6Normalize [c6Assistant, c6Tool]).map
        (fun m => (m.role, m.tool_call_id))
      = [("assistant", none), ("tool", some "call_2")]
    ∧ (∀ tc ∈ assistantToolCalls [c6Assistant, c6Tool], tc.id ≠ some "call_2") := by
  refine ⟨rfl, by decide⟩

/-- C6 as amended: only the Cohere outbound adapter rejects an unresolvable
tool-role message: when the messages up to it format successfully and its
tool_call_id matches no id among the tool calls of the assistant messages of
the whole list, _formatMessagesForCohere fails with the LLMPlugToolError
naming that id; the OpenAI adapter passes such a message through
unvalidated. -/
theorem C6_cohere_unmatched_tool_error
    (pre post : List ChatMessage) (msg : ChatMessage) (acc : CohereAcc) (id : String)
    (hrole : msg.role = "tool")
    (hid : msg.tool_call_id = some id) (hid2 : id ≠ "")
    (hps : ∃ ps, msg.content = .parts ps ∧ (findToolOutput ps).isSome = true)
    (hnomatch : ∀ tc ∈ assistantToolCalls (pre ++ msg :: post), tc.id ≠ some id)
    (hpre : pre.foldlM (cohereFormatStep (pre ++ msg :: post)) {} = .ok acc) :
    cohereFormatMessages (pre ++ msg :: post)
      = .error (.toolError
          ("Cohere: Could not find original tool call for ID " ++ jsOrStr msg.tool_call_id ""
            ++ " to construct TOOL message. Original call details are needed.")
          msg.name) := by
  obtain ⟨ps, hps1, hps2⟩ := hps
  obtain ⟨c, hc⟩ := Option.isSome_iff_exists.mp hps2
  have hfind : (assistantToolCalls (pre ++ msg :: post)).find?
      (fun tc => tc.id == msg.tool_call_id) = none := by
    apply List.find?_eq_none.mpr
    intro tc htc
    have hne := hnomatch tc htc
    rw [hid]
    simp only [beq_iff_eq]
    exact hne
  have htruthy : truthy msg.tool_call_id = true := by
    rw [hid]
    simp [truthy, hid2]
  have hstep : cohereFormatStep (pre ++ msg :: post) acc msg
      = .error (.toolError
          ("Cohere: Could not find original tool call for ID " ++ jsOrStr msg.tool_call_id ""
            ++ " to construct TOOL message. Original call details are needed.")
          msg.name) := by
    simp only [cohereFormatStep, hrole, hps1, htruthy, hc, hfind]
    rfl
  unfold cohereFormatMessages
  rw [List.foldlM_append, hpre]
  show (msg :: post).foldlM (cohereFormatStep (pre ++ msg :: post)) acc = _
  rw [List.foldlM_cons, hstep]
  rfl

/-- C6 example: a well-formed Cohere tool message (array content with a
tool_output part) answering the unknown id call_2. -/
def c6CohereTool : ChatMessage :=
  { role := "tool", content := .parts [.toolOutput (.obj [("result", .str "42")])],
    name := some "get", tool_call_id := some "call_2" }

/-- C6 witness: the amended theorem applied to the two-message conversation
whose only announced id is call_1 and whose tool message answers call_2. -/
theorem C6_cohere_unmatched_tool_error_witness :
    cohereFormatMessages [c6Assistant, c6CohereTool]
      = .error (.toolError
          ("Cohere: Could not find original tool call for ID "
            ++ jsOrStr c6CohereTool.tool_call_id ""
            ++ " to construct TOOL message. Original call details are needed.")
          c6CohereTool.name) :=
  C6_cohere_unmatched_tool_error [c6Assistant] [] c6CohereTool
    { preamble := none,
      messages := [.chat "CHATBOT" " " (some [{ name := "get", parameters := .obj [] }])] }
    "call_2" rfl rfl (by decide)
    ⟨[.toolOutput (.obj [("result", .str "42")])], rfl, rfl⟩
    (by decide) rfl
